import Mathlib

/-!
A Lean model of the multi-persona messenger core: message status
transitions, unread-count bookkeeping, channel resolution, typing
indicators, presence tracking, and input validation, translated from
the TypeScript client (ChatView.tsx, typingService, presenceService,
fileService, UnreadBadge) and the SQL migrations (triggers and RPCs).
-/

/-! ## Basic identifiers and time -/

abbrev UserId := Nat
abbrev ChannelId := Nat
abbrev MessageId := Nat
/-- Time in milliseconds, as the client code uses Date.now(). -/
abbrev Time := Nat

/-! ## Messages and delivery status

From the phase-1 migration: status is a text column constrained to
sent, delivered or read, with optional delivered_at and read_at. -/

inductive MsgStatus where
  | sent
  | delivered
  | read
  deriving DecidableEq, Repr

structure Message where
  id : MessageId
  channel_id : ChannelId
  sender_id : UserId
  content : String
  status : MsgStatus
  delivered_at : Option Time
  read_at : Option Time
  created_at : Time
  deriving DecidableEq, Repr

/-- The row update performed by markMessageAsDelivered in ChatView.tsx:
update messages set status = delivered, delivered_at = now.  The query
filters only on the message id, with no condition on the current
status, so the update applies whatever the current status is. -/
def deliverUpdate (now : Time) (m : Message) : Message :=
  { m with status := .delivered, delivered_at := some now }

/-- markMessageAsDelivered from ChatView.tsx: applies deliverUpdate to
the row whose id matches, leaving every other row unchanged. -/
def markMessageAsDelivered (msgId : MessageId) (now : Time)
    (msgs : List Message) : List Message :=
  msgs.map fun m => if m.id = msgId then deliverUpdate now m else m

/-- The per-row effect of the mark_messages_as_read SQL function:
a row in the given channel whose sender differs from the reader and
whose status is not read gets status = read, read_at = now; any other
row is untouched. -/
def readUpdate (chId : ChannelId) (uid : UserId) (now : Time)
    (m : Message) : Message :=
  if m.channel_id = chId ∧ m.sender_id ≠ uid ∧ m.status ≠ .read then
    { m with status := .read, read_at := some now }
  else m

/-- mark_messages_as_read from the phase-1 migration, applied to the
whole message table in one batch. -/
def mark_messages_as_read (chId : ChannelId) (uid : UserId) (now : Time)
    (msgs : List Message) : List Message :=
  msgs.map (readUpdate chId uid now)

/-! ## Unread counter

From the phase-1 migration: the trigger increment_unread_count fires
after each message insert, looks up the channel owner (the user_id of
the contact row the channel belongs to) and increments unread_count
only when the sender is not that owner; reset_unread_count sets the
counter to zero unconditionally. -/

structure UnreadChannel where
  owner_id : UserId
  unread_count : Nat
  deriving DecidableEq, Repr

/-- The body of the increment_unread_count trigger for one insert. -/
def increment_unread_count (sender : UserId) (ch : UnreadChannel) :
    UnreadChannel :=
  if sender ≠ ch.owner_id then
    { ch with unread_count := ch.unread_count + 1 }
  else ch

/-- reset_unread_count from the phase-1 migration. -/
def reset_unread_count (ch : UnreadChannel) : UnreadChannel :=
  { ch with unread_count := 0 }

/-- One operation touching a channel's unread counter: a message
insert (whose trigger runs increment_unread_count atomically with it)
or an explicit reset. -/
inductive ChanOp where
  | insertMessage (sender : UserId)
  | resetUnread
  deriving DecidableEq, Repr

def applyChanOp (ch : UnreadChannel) : ChanOp → UnreadChannel
  | .insertMessage sender => increment_unread_count sender ch
  | .resetUnread => reset_unread_count ch

def runChanOps (ch : UnreadChannel) (ops : List ChanOp) : UnreadChannel :=
  ops.foldl applyChanOp ch

/-- Whether an operation is an inbound insert: a message insert whose
sender is not the channel owner. -/
def isInbound (owner : UserId) : ChanOp → Bool
  | .insertMessage sender => sender ≠ owner
  | .resetUnread => false

def isReset : ChanOp → Bool
  | .insertMessage _ => false
  | .resetUnread => true

/-- Number of inbound inserts in a list of operations. -/
def countInbound (owner : UserId) (ops : List ChanOp) : Nat :=
  (ops.filter (isInbound owner)).length

/-- The suffix of the operation list strictly after the last reset,
or none when no reset occurs. -/
def afterLastReset : List ChanOp → Option (List ChanOp)
  | [] => none
  | op :: rest =>
    match afterLastReset rest with
    | some suffix => some suffix
    | none => if isReset op then some rest else none

/-! ## Channel resolution

From the base migration: persona_channels has UNIQUE(contact_id,
persona_id); defaults are is_locked false, notification_enabled true,
last_message_at null and (from the phase-1 migration) unread_count 0.
loadChannel in ChatView.tsx first selects the row for the pair and,
when none is found, inserts a fresh row; the insert's error, if any,
is discarded and its data field is null, so after a losing insert the
local channel variable stays null and nothing further happens. -/

structure ChanRow where
  id : ChannelId
  contact_id : Nat
  persona_id : Nat
  last_message_at : Option Time
  is_locked : Bool
  notification_enabled : Bool
  unread_count : Nat
  deriving DecidableEq, Repr

/-- A fresh persona_channels row with the schema's default values. -/
def defaultChanRow (newId : ChannelId) (cid pid : Nat) : ChanRow :=
  { id := newId, contact_id := cid, persona_id := pid,
    last_message_at := none, is_locked := false,
    notification_enabled := true, unread_count := 0 }

def matchesPair (cid pid : Nat) (ch : ChanRow) : Bool :=
  ch.contact_id = cid ∧ ch.persona_id = pid

/-- The select ... eq(contact_id).eq(persona_id).maybeSingle() lookup. -/
def findChannel (store : List ChanRow) (cid pid : Nat) : Option ChanRow :=
  store.find? (matchesPair cid pid)

/-- Inserting a persona_channels row under the UNIQUE(contact_id,
persona_id) constraint: when a row for the pair already exists the
insert fails and returns no data (the client discards the error);
otherwise the row is appended and returned. -/
def insertChannel (store : List ChanRow) (newId : ChannelId)
    (cid pid : Nat) : List ChanRow × Option ChanRow :=
  if store.any (matchesPair cid pid) then (store, none)
  else
    (store ++ [defaultChanRow newId cid pid],
     some (defaultChanRow newId cid pid))

/-- loadChannel from ChatView.tsx.  The lookup runs against the
snapshot the client saw; the insert attempt, when the lookup came back
empty, runs against the store as it is by the time the insert lands
(these differ exactly when another resolver raced in between).  The
returned option is the channel the caller ends up with: null means the
caller sets no channel id at all. -/
def loadChannel (snapshot store : List ChanRow) (newId : ChannelId)
    (cid pid : Nat) : List ChanRow × Option ChanRow :=
  match findChannel snapshot cid pid with
  | some ch => (store, some ch)
  | none => insertChannel store newId cid pid

/-! ## Sending a message

handleSendMessage in ChatView.tsx: if the trimmed input is empty the
handler returns before doing anything; otherwise it inserts a message
with status sent and the trimmed content, then updates the channel's
last_message_at to the wall-clock time of the update, with no
comparison against the stored value. -/

/-- The trim() call of the JS source: strip leading and trailing
whitespace from a string. -/
def jsTrim (s : String) : String :=
  ⟨((s.data.dropWhile Char.isWhitespace).reverse.dropWhile
      Char.isWhitespace).reverse⟩

/-- handleSendMessage from ChatView.tsx.  tInsert is the insert's
commit time (the created_at default), tUpdate the time of the
follow-up channel update.  Returns the updated channel and message
list; an empty trimmed input leaves both untouched. -/
def handleSendMessage (newMessage : String) (sender : UserId)
    (newId : MessageId) (tInsert tUpdate : Time) (ch : ChanRow)
    (msgs : List Message) : ChanRow × List Message :=
  if jsTrim newMessage = "" then (ch, msgs)
  else
    let m : Message :=
      { id := newId, channel_id := ch.id, sender_id := sender,
        content := jsTrim newMessage, status := .sent,
        delivered_at := none, read_at := none, created_at := tInsert }
    ({ ch with last_message_at := some tUpdate }, msgs ++ [m])

/-! ## Typing indicators

From the phase-1 migration: typing_indicators has UNIQUE(channel_id,
user_id).  sendTypingIndicator in typingService upserts the row for
the pair with expires_at = Date.now() + 5000; on conflict the existing
row keeps its created_at and gets the new expires_at.  The
subscribeToTyping handler ignores events whose user_id is the
subscriber's own, recomputes validity as expires_at > now at receipt
time for INSERT/UPDATE events, and reports not-typing for DELETE
events. -/

structure TypingRow where
  channel_id : ChannelId
  user_id : UserId
  created_at : Time
  expires_at : Time
  deriving DecidableEq, Repr

def matchesTypingKey (chId : ChannelId) (uid : UserId)
    (r : TypingRow) : Bool :=
  r.channel_id = chId ∧ r.user_id = uid

/-- sendTypingIndicator from typingService: upsert on the
(channel_id, user_id) key with expires_at = now + 5000 ms. -/
def sendTypingIndicator (chId : ChannelId) (uid : UserId) (now : Time)
    (rows : List TypingRow) : List TypingRow :=
  if rows.any (matchesTypingKey chId uid) then
    rows.map fun r =>
      if matchesTypingKey chId uid r then { r with expires_at := now + 5000 }
      else r
  else
    rows ++ [{ channel_id := chId, user_id := uid, created_at := now,
               expires_at := now + 5000 }]

/-- removeTypingIndicator from typingService: delete the row for the
(channel_id, user_id) key. -/
def removeTypingIndicator (chId : ChannelId) (uid : UserId)
    (rows : List TypingRow) : List TypingRow :=
  rows.filter fun r => ¬ matchesTypingKey chId uid r

/-- A change-feed event on typing_indicators as the transport hands it
to the handler.  For INSERT and UPDATE events the payload's new field
carries the full new row; for DELETE events the payload's new field is
empty (the table declares no replica identity beyond the default, so
the deleted row's contents are not republished), so the deleted
constructor carries no row: every field the handler reads from the
payload's new field on a DELETE is undefined. -/
inductive TypingEvent where
  | inserted (row : TypingRow)
  | updated (row : TypingRow)
  | deleted
  deriving DecidableEq, Repr

/-- The user_id the handler reads off the payload's new field: the
row's user for INSERT/UPDATE, undefined (none) for DELETE. -/
def payloadNewUserId : TypingEvent → Option UserId
  | .inserted r => some r.user_id
  | .updated r => some r.user_id
  | .deleted => none

/-- The event handler installed by subscribeToTyping in typingService,
for events already filtered to the subscribed channel.  now is the
wall-clock time at which the handler runs.  Returns the (isTyping,
userId) pair passed to the callback, or none when the callback is not
invoked.  The self-filter compares the payload's new user_id with the
subscriber's id, so a DELETE event, whose payload carries no new row,
never equals it and always reaches the callback, which then receives
an undefined user id (none); the validity comparison against an
undefined expires_at is likewise false, matching the callback's
hard-coded false for DELETE. -/
def subscribeToTypingHandler (currentUserId : UserId) (now : Time)
    (ev : TypingEvent) : Option (Bool × Option UserId) :=
  if payloadNewUserId ev = some currentUserId then none
  else
    match ev with
    | .inserted r => some (now < r.expires_at, some r.user_id)
    | .updated r => some (now < r.expires_at, some r.user_id)
    | .deleted => some (false, none)

/-! ## Presence

From the phase-1 migration: user_presence has UNIQUE(user_id).
updatePresence in presenceService upserts on the user_id key, writing
the given status and setting last_seen and updated_at to the current
time.  Heartbeat ticks, visibility changes and session teardown all go
through this one function with a status of online, away or offline. -/

inductive PresenceStatus where
  | online
  | away
  | offline
  deriving DecidableEq, Repr

structure PresenceRow where
  user_id : UserId
  status : PresenceStatus
  last_seen : Time
  updated_at : Time
  deriving DecidableEq, Repr

/-- updatePresence from presenceService: upsert on user_id, setting
status, last_seen and updated_at. -/
def updatePresence (uid : UserId) (status : PresenceStatus) (now : Time)
    (rows : List PresenceRow) : List PresenceRow :=
  if rows.any (fun r => r.user_id = uid) then
    rows.map fun r =>
      if r.user_id = uid then
        { r with status := status, last_seen := now, updated_at := now }
      else r
  else
    rows ++ [{ user_id := uid, status := status, last_seen := now,
               updated_at := now }]

/-- One presence-affecting call: the user, the status it forces
(online for a heartbeat tick or visibility regained, away for
visibility lost, offline for teardown) and the wall-clock time at
which it runs. -/
structure PresenceCall where
  user : UserId
  status : PresenceStatus
  time : Time
  deriving DecidableEq, Repr

def runPresenceCalls (rows : List PresenceRow)
    (calls : List PresenceCall) : List PresenceRow :=
  calls.foldl (fun rs c => updatePresence c.user c.status c.time rs) rows

/-! ## File validation and upload

From fileService.ts: validateFile rejects files larger than 50 MB or
whose MIME type is not in the allowed list; uploadFile runs
validateFile first and throws its error before touching storage. -/

def MAX_FILE_SIZE : Nat := 50 * 1024 * 1024

def ALLOWED_IMAGE_TYPES : List String :=
  ["image/jpeg", "image/png", "image/gif", "image/webp", "image/svg+xml"]

def ALLOWED_DOCUMENT_TYPES : List String :=
  ["application/pdf",
   "application/msword",
   "application/vnd.openxmlformats-officedocument.wordprocessingml.document",
   "application/vnd.ms-excel",
   "application/vnd.openxmlformats-officedocument.spreadsheetml.sheet",
   "application/vnd.ms-powerpoint",
   "application/vnd.openxmlformats-officedocument.presentationml.presentation",
   "text/plain"]

def ALLOWED_VIDEO_TYPES : List String :=
  ["video/mp4", "video/webm", "video/ogg"]

def ALLOWED_AUDIO_TYPES : List String :=
  ["audio/mpeg", "audio/ogg", "audio/wav", "audio/webm"]

def ALLOWED_TYPES : List String :=
  ALLOWED_IMAGE_TYPES ++ ALLOWED_DOCUMENT_TYPES ++ ALLOWED_VIDEO_TYPES ++
    ALLOWED_AUDIO_TYPES

/-- The name, size (bytes) and MIME type of a candidate upload. -/
structure FileDesc where
  name : String
  size : Nat
  fileType : String
  deriving DecidableEq, Repr

structure ValidationResult where
  valid : Bool
  error : Option String
  deriving DecidableEq, Repr

/-- validateFile from fileService.ts. -/
def validateFile (f : FileDesc) : ValidationResult :=
  if f.size > MAX_FILE_SIZE then
    { valid := false, error := some "File size exceeds 50MB limit" }
  else if ¬ ALLOWED_TYPES.contains f.fileType then
    { valid := false, error := some "File type not allowed" }
  else
    { valid := true, error := none }

/-- The storage bucket modelled as the list of paths written to it. -/
abbrev Storage := List String

/-- uploadFile from fileService.ts: it validates first and throws the
validation error before any storage write; only a valid file reaches
the storage upload.  The result carries the storage state after the
call together with the uploaded path, or the thrown error message. -/
def uploadFile (f : FileDesc) (path : String) (storage : Storage) :
    Except String (Storage × String) :=
  if (validateFile f).valid = false then
    .error ((validateFile f).error.getD "")
  else
    .ok (storage ++ [path], path)

/-! ## Unread badge

From the UnreadBadge component: a count at or below zero renders
nothing; a count above the max (default 99) renders the capped string;
otherwise the exact count is rendered. -/

/-- The string rendered by UnreadBadge, none when the component
returns null.  The count is an Int since a JS number may be
negative. -/
def UnreadBadge (count : Int) (maxCount : Nat) : Option String :=
  if count ≤ 0 then none
  else if count > maxCount then some (toString maxCount ++ "+")
  else some (toString count)

/-! ## Helper predicates used to state the properties -/

/-- Whether a typing callback outcome reports active typing: the
isTyping flag of an invoked callback, false when the callback was not
invoked. -/
def reportsTyping : Option (Bool × Option UserId) → Bool
  | some (b, _) => b
  | none => false

/-- Whether an uploadFile outcome is a thrown error. -/
def uploadFailed : Except String (Storage × String) → Bool
  | .error _ => true
  | .ok _ => false

/-- Every row of the second list that shares a user with a row of the
first has a last_seen at or above that row's. -/
def lastSeenMonotoneFrom (rows rowsF : List PresenceRow) : Prop :=
  ∀ r0 ∈ rows, ∀ rF ∈ rowsF, rF.user_id = r0.user_id →
    r0.last_seen ≤ rF.last_seen

instance (rows rowsF : List PresenceRow) :
    Decidable (lastSeenMonotoneFrom rows rowsF) := by
  unfold lastSeenMonotoneFrom; infer_instance

/-- At most one presence row per user: all rows carry pairwise
distinct user ids. -/
def distinctUsers (rows : List PresenceRow) : Prop :=
  rows.Pairwise (fun a b => a.user_id ≠ b.user_id)

instance (rows : List PresenceRow) : Decidable (distinctUsers rows) := by
  unfold distinctUsers; infer_instance

/-! ## Theorems -/

/-- Claim C10: the unread badge renders nothing for every count at or
below zero, the exact count for counts from 1 up to the max, and the
capped string (max followed by a plus sign) for counts above the
max. -/
theorem UnreadBadge_rendering (count : Int) (maxCount : Nat) :
    (count ≤ 0 → UnreadBadge count maxCount = none) ∧
    (1 ≤ count → count ≤ (maxCount : Int) →
      UnreadBadge count maxCount = some (toString count)) ∧
    ((maxCount : Int) < count →
      UnreadBadge count maxCount = some (toString maxCount ++ "+")) := by
  refine ⟨fun h => ?_, fun h1 h2 => ?_, fun h => ?_⟩
  · unfold UnreadBadge
    rw [if_pos h]
  · unfold UnreadBadge
    rw [if_neg (by omega), if_neg (by omega)]
  · unfold UnreadBadge
    rw [if_neg (by omega), if_pos (by omega)]

/-- Claim C10 witness at concrete counts 0, 5 and 100 with the default
max of 99. -/
theorem UnreadBadge_rendering_witness :
    UnreadBadge 0 99 = none ∧
    UnreadBadge 5 99 = some (toString (5 : Int)) ∧
    UnreadBadge 100 99 = some (toString (99 : Nat) ++ "+") := by
  refine ⟨?_, ?_, ?_⟩
  · exact (UnreadBadge_rendering 0 99).1 (by omega)
  · exact (UnreadBadge_rendering 5 99).2.1 (by omega) (by omega)
  · exact (UnreadBadge_rendering 100 99).2.2 (by omega)

/-- Claim C9: a whitespace-only message with no attachment performs no
insert and no channel update; a file over 50 MB or with a disallowed
MIME type fails validation, and uploadFile on any invalid file throws
the validation error without touching storage. -/
theorem validation_rejected_before_any_mutation (newMessage : String)
    (sender : UserId) (newId : MessageId) (tInsert tUpdate : Time)
    (ch : ChanRow) (msgs : List Message) (f : FileDesc) (path : String)
    (storage : Storage) :
    (jsTrim newMessage = "" →
      handleSendMessage newMessage sender newId tInsert tUpdate ch msgs =
        (ch, msgs)) ∧
    (MAX_FILE_SIZE < f.size → (validateFile f).valid = false) ∧
    (ALLOWED_TYPES.contains f.fileType = false →
      (validateFile f).valid = false) ∧
    ((validateFile f).valid = false →
      uploadFile f path storage = .error ((validateFile f).error.getD "") ∧
      uploadFailed (uploadFile f path storage) = true) := by
  refine ⟨fun h => ?_, fun h => ?_, fun h => ?_, fun h => ?_⟩
  · simp [handleSendMessage, h]
  · simp [validateFile, h]
  · unfold validateFile
    split_ifs with h1 h2 <;> simp_all
  · simp [uploadFile, h, uploadFailed]

/-- Claim C9 witness: a whitespace-only send is a no-op, an oversized
file and a disallowed MIME type fail validation, and the upload of the
disallowed file throws. -/
theorem validation_rejected_before_any_mutation_witness :
    handleSendMessage "   " 7 0 1 2 (defaultChanRow 0 1 2) [] =
      (defaultChanRow 0 1 2, []) ∧
    (validateFile { name := "big.pdf", size := MAX_FILE_SIZE + 1,
                    fileType := "application/pdf" }).valid = false ∧
    uploadFailed (uploadFile { name := "run.exe", size := 10,
                               fileType := "application/exe" } "p" []) =
      true := by
  refine ⟨?_, ?_, ?_⟩
  · exact (validation_rejected_before_any_mutation "   " 7 0 1 2
      (defaultChanRow 0 1 2) [] ⟨"x", 0, "text/plain"⟩ "p" []).1 (by decide)
  · exact (validation_rejected_before_any_mutation "" 7 0 1 2
      (defaultChanRow 0 1 2) []
      ⟨"big.pdf", MAX_FILE_SIZE + 1, "application/pdf"⟩ "p" []).2.1
      (by decide)
  · exact ((validation_rejected_before_any_mutation "" 7 0 1 2
      (defaultChanRow 0 1 2) []
      ⟨"run.exe", 10, "application/exe"⟩ "p" []).2.2.2 (by decide)).2

/-- Applying the mark-as-read row update a second time, at any later
time, changes nothing: the first application either made the row read
(excluded by the status filter thereafter) or left it alone (so the
filter still rejects it). -/
theorem readUpdate_stable (chId : ChannelId) (uid : UserId)
    (t t' : Time) (m : Message) :
    readUpdate chId uid t' (readUpdate chId uid t m) =
      readUpdate chId uid t m := by
  unfold readUpdate
  split_ifs with h1 h2 <;> simp_all

/-- Claim C1 counterexample: starting from a freshly sent inbound
message, mark it delivered, then mark the channel read, then replay
markDelivered (as the message INSERT event handler does on late
delivery): the message that was at status read regresses to delivered,
and delivered_at is overwritten with the later call's time. -/
theorem markDelivered_regresses_read_status :
    (mark_messages_as_read 0 1 2
        (markMessageAsDelivered 0 1
          [{ id := 0, channel_id := 0, sender_id := 2, content := "hi",
             status := .sent, delivered_at := none, read_at := none,
             created_at := 0 }])).map Message.status = [.read] ∧
    (markMessageAsDelivered 0 3
        (mark_messages_as_read 0 1 2
          (markMessageAsDelivered 0 1
            [{ id := 0, channel_id := 0, sender_id := 2, content := "hi",
               status := .sent, delivered_at := none, read_at := none,
               created_at := 0 }]))).map Message.status = [.delivered] ∧
    (markMessageAsDelivered 0 3
        (mark_messages_as_read 0 1 2
          (markMessageAsDelivered 0 1
            [{ id := 0, channel_id := 0, sender_id := 2, content := "hi",
               status := .sent, delivered_at := none, read_at := none,
               created_at := 0 }]))).map Message.delivered_at =
      [some 3] := by
  decide

/-- Claim C1 amended: markDelivered is not guarded by the current
status: it unconditionally sets status to delivered and overwrites
delivered_at with the call time, so a message at read regresses and
delivered_at is rewritten on every call.  markAllRead, in contrast,
does only advance: it leaves a message already read, or sent by the
reader, unchanged, and a second application changes nothing. -/
theorem message_status_transition_behavior (m : Message)
    (chId : ChannelId) (uid : UserId) (t t' : Time) :
    (deliverUpdate t m).status = .delivered ∧
    (deliverUpdate t m).delivered_at = some t ∧
    (m.status = .read → readUpdate chId uid t m = m) ∧
    (m.sender_id = uid → readUpdate chId uid t m = m) ∧
    readUpdate chId uid t' (readUpdate chId uid t m) =
      readUpdate chId uid t m := by
  refine ⟨rfl, rfl, fun h => ?_, fun h => ?_, readUpdate_stable ..⟩
  · unfold readUpdate
    rw [if_neg (by simp [h])]
  · unfold readUpdate
    rw [if_neg (by simp [h])]

/-- Claim C1 amended witness at a concrete read message and a concrete
message sent by the reader. -/
theorem message_status_transition_behavior_witness :
    readUpdate 0 1 7
        { id := 0, channel_id := 0, sender_id := 2, content := "hi",
          status := .read, delivered_at := some 1, read_at := some 2,
          created_at := 0 } =
      { id := 0, channel_id := 0, sender_id := 2, content := "hi",
        status := .read, delivered_at := some 1, read_at := some 2,
        created_at := 0 } ∧
    readUpdate 0 1 7
        { id := 1, channel_id := 0, sender_id := 1, content := "me",
          status := .sent, delivered_at := none, read_at := none,
          created_at := 0 } =
      { id := 1, channel_id := 0, sender_id := 1, content := "me",
        status := .sent, delivered_at := none, read_at := none,
        created_at := 0 } := by
  constructor
  · exact (message_status_transition_behavior
      { id := 0, channel_id := 0, sender_id := 2, content := "hi",
        status := .read, delivered_at := some 1, read_at := some 2,
        created_at := 0 } 0 1 7 8).2.2.1 rfl
  · exact (message_status_transition_behavior
      { id := 1, channel_id := 0, sender_id := 1, content := "me",
        status := .sent, delivered_at := none, read_at := none,
        created_at := 0 } 0 1 7 8).2.2.2.1 rfl

/-- Claim C5: markAllRead transitions exactly the channel's messages
whose sender is not the reader and whose status is not read into read
with read_at set to the call time, leaves every other message
unchanged, and a second run (at any time) changes nothing. -/
theorem mark_messages_as_read_correct (chId : ChannelId) (uid : UserId)
    (t t' : Time) (m : Message) (msgs : List Message) :
    (m.channel_id = chId → m.sender_id ≠ uid → m.status ≠ .read →
      readUpdate chId uid t m =
        { m with status := .read, read_at := some t }) ∧
    (¬ (m.channel_id = chId ∧ m.sender_id ≠ uid ∧ m.status ≠ .read) →
      readUpdate chId uid t m = m) ∧
    mark_messages_as_read chId uid t msgs =
      msgs.map (readUpdate chId uid t) ∧
    mark_messages_as_read chId uid t'
        (mark_messages_as_read chId uid t msgs) =
      mark_messages_as_read chId uid t msgs := by
  refine ⟨fun h1 h2 h3 => ?_, fun h => ?_, rfl, ?_⟩
  · unfold readUpdate
    rw [if_pos ⟨h1, h2, h3⟩]
  · unfold readUpdate
    rw [if_neg h]
  · unfold mark_messages_as_read
    rw [List.map_map]
    exact List.map_congr_left fun m _ => readUpdate_stable chId uid t t' m

/-- Claim C5 witness: a concrete inbound unread message transitions to
read with read_at set, and a concrete second run changes nothing. -/
theorem mark_messages_as_read_correct_witness :
    readUpdate 0 1 5
        { id := 0, channel_id := 0, sender_id := 2, content := "hi",
          status := .delivered, delivered_at := some 1, read_at := none,
          created_at := 0 } =
      { id := 0, channel_id := 0, sender_id := 2, content := "hi",
        status := .read, delivered_at := some 1, read_at := some 5,
        created_at := 0 } ∧
    mark_messages_as_read 0 1 9
        (mark_messages_as_read 0 1 5
          [{ id := 0, channel_id := 0, sender_id := 2, content := "hi",
             status := .sent, delivered_at := none, read_at := none,
             created_at := 0 }]) =
      mark_messages_as_read 0 1 5
        [{ id := 0, channel_id := 0, sender_id := 2, content := "hi",
           status := .sent, delivered_at := none, read_at := none,
           created_at := 0 }] := by
  constructor
  · exact (mark_messages_as_read_correct 0 1 5 9
      { id := 0, channel_id := 0, sender_id := 2, content := "hi",
        status := .delivered, delivered_at := some 1, read_at := none,
        created_at := 0 } []).1 rfl (by decide) (by decide)
  · exact (mark_messages_as_read_correct 0 1 5 9
      { id := 0, channel_id := 0, sender_id := 2, content := "x",
        status := .sent, delivered_at := none, read_at := none,
        created_at := 0 }
      [{ id := 0, channel_id := 0, sender_id := 2, content := "hi",
         status := .sent, delivered_at := none, read_at := none,
         created_at := 0 }]).2.2.2

/-- Claim C4 counterexample: a channel whose last_message_at is 10
receives an append whose insert and update run at time 5; the stored
timestamp is overwritten with 5, moving it backward instead of staying
at the maximum. -/
theorem handleSendMessage_moves_last_message_at_backward :
    ({ defaultChanRow 0 1 2 with last_message_at := some 10 } :
        ChanRow).last_message_at = some 10 ∧
    (handleSendMessage "hi" 1 0 5 5
        { defaultChanRow 0 1 2 with last_message_at := some 10 }
        []).1.last_message_at = some 5 := by
  constructor
  · rfl
  · decide

/-- Claim C4 amended: appending a message whose trimmed content is
nonempty sets the channel's last_message_at to the wall-clock time of
the follow-up update unconditionally, with no comparison against the
stored value, so an append carrying an earlier time moves the
timestamp backward; the message itself is appended with status sent
and the trimmed content. -/
theorem handleSendMessage_overwrites_last_message_at
    (newMessage : String) (sender : UserId) (newId : MessageId)
    (tInsert tUpdate : Time) (ch : ChanRow) (msgs : List Message)
    (h : jsTrim newMessage ≠ "") :
    (handleSendMessage newMessage sender newId tInsert tUpdate ch
        msgs).1 = { ch with last_message_at := some tUpdate } ∧
    (handleSendMessage newMessage sender newId tInsert tUpdate ch
        msgs).2 =
      msgs ++ [{ id := newId, channel_id := ch.id, sender_id := sender,
                 content := jsTrim newMessage, status := .sent,
                 delivered_at := none, read_at := none,
                 created_at := tInsert }] := by
  unfold handleSendMessage
  rw [if_neg h]
  exact ⟨rfl, rfl⟩

/-- Claim C4 amended witness: the concrete append from the
counterexample run through the amended characterization. -/
theorem handleSendMessage_overwrites_last_message_at_witness :
    (handleSendMessage "hi" 1 0 5 5
        { defaultChanRow 0 1 2 with last_message_at := some 10 }
        []).1 =
      { defaultChanRow 0 1 2 with last_message_at := some 5 } := by
  have h := (handleSendMessage_overwrites_last_message_at "hi" 1 0 5 5
    { defaultChanRow 0 1 2 with last_message_at := some 10 } []
    (by decide)).1
  rw [h]

/-- Claim C3 counterexample: both resolvers look up an empty store,
resolver A inserts and wins; resolver B, whose insert then hits the
uniqueness violation, ends with no channel at all (the discarded error
leaves its local channel null) instead of re-fetching and observing
the winner's id.  Exactly one row exists, but the callers do not end
with the same channel id. -/
theorem loadChannel_race_loser_gets_no_channel :
    (loadChannel ([] : List ChanRow) [] 10 1 2).2 =
      some (defaultChanRow 10 1 2) ∧
    (loadChannel ([] : List ChanRow)
        (loadChannel ([] : List ChanRow) [] 10 1 2).1 11 1 2).2 =
      none ∧
    (loadChannel ([] : List ChanRow)
        (loadChannel ([] : List ChanRow) [] 10 1 2).1 11 1 2).1 =
      [defaultChanRow 10 1 2] := by
  decide

/-- Claim C3 amended: resolving when no channel exists creates exactly
one row with the default flags (unlocked, notifications on,
unread_count 0, last_message_at null) and returns it; when two
resolvers race on the same pair the loser's insert hits the
uniqueness violation, which the client discards, so the loser ends
with no channel rather than the winner's row; in every case at most
one row per pair exists afterwards. -/
theorem loadChannel_behavior (snapshot store : List ChanRow)
    (newId : ChannelId) (cid pid : Nat) :
    (findChannel store cid pid = none →
      loadChannel store store newId cid pid =
        (store ++ [defaultChanRow newId cid pid],
         some (defaultChanRow newId cid pid))) ∧
    (findChannel snapshot cid pid = none →
      store.any (matchesPair cid pid) = true →
      loadChannel snapshot store newId cid pid = (store, none)) ∧
    (store.countP (matchesPair cid pid) ≤ 1 →
      (loadChannel snapshot store newId cid pid).1.countP
          (matchesPair cid pid) ≤ 1) := by
  refine ⟨fun h => ?_, fun h1 h2 => ?_, fun h => ?_⟩
  · have hany : store.any (matchesPair cid pid) = false := by
      rw [List.any_eq_false]
      intro ch hch
      have := List.find?_eq_none.mp h ch hch
      simpa using this
    unfold loadChannel
    rw [h]
    unfold insertChannel
    rw [hany]
    simp
  · unfold loadChannel
    rw [h1]
    unfold insertChannel
    rw [h2]
    simp
  · unfold loadChannel
    cases hfind : findChannel snapshot cid pid with
    | some ch => simpa using h
    | none =>
      unfold insertChannel
      cases hany : store.any (matchesPair cid pid) with
      | true => simpa using h
      | false =>
        have hcount : store.countP (matchesPair cid pid) = 0 := by
          rw [List.countP_eq_zero]
          intro ch hch
          have := List.any_eq_false.mp hany ch hch
          simpa using this
        simp [List.countP_append, hcount, List.countP_cons,
          matchesPair, defaultChanRow]

/-- Claim C3 amended witness: a fresh sequential resolve on the empty
store creates and returns the default row, and the concrete racing
loser from the counterexample ends with no channel while the store
keeps a single row for the pair. -/
theorem loadChannel_behavior_witness :
    loadChannel ([] : List ChanRow) [] 10 1 2 =
      ([defaultChanRow 10 1 2], some (defaultChanRow 10 1 2)) ∧
    loadChannel ([] : List ChanRow) [defaultChanRow 10 1 2] 11 1 2 =
      ([defaultChanRow 10 1 2], none) ∧
    (loadChannel ([] : List ChanRow) [defaultChanRow 10 1 2] 11 1
        2).1.countP (matchesPair 1 2) ≤ 1 := by
    refine ⟨?_, ?_, ?_⟩
    · have h := (loadChannel_behavior ([] : List ChanRow) [] 10 1 2).1 rfl
      simpa using h
    · exact (loadChannel_behavior ([] : List ChanRow)
        [defaultChanRow 10 1 2] 11 1 2).2.1 rfl (by decide)
    · exact (loadChannel_behavior ([] : List ChanRow)
        [defaultChanRow 10 1 2] 11 1 2).2.2 (by decide)

/-- Neither an insert trigger nor a reset changes the channel owner. -/
theorem applyChanOp_owner (ch : UnreadChannel) (op : ChanOp) :
    (applyChanOp ch op).owner_id = ch.owner_id := by
  cases op with
  | insertMessage sender =>
    simp only [applyChanOp, increment_unread_count]
    split <;> rfl
  | resetUnread => rfl

/-- Running any operation sequence leaves the owner fixed and yields a
counter equal to the inbound inserts after the last reset, or, when no
reset occurred, the starting counter plus all inbound inserts. -/
theorem runChanOps_spec (ops : List ChanOp) (ch : UnreadChannel) :
    (runChanOps ch ops).owner_id = ch.owner_id ∧
    (runChanOps ch ops).unread_count =
      (match afterLastReset ops with
       | some suffix => countInbound ch.owner_id suffix
       | none => ch.unread_count + countInbound ch.owner_id ops) := by
  induction ops generalizing ch with
  | nil => exact ⟨rfl, by simp [runChanOps, afterLastReset, countInbound]⟩
  | cons op rest ih =>
    have hrun : runChanOps ch (op :: rest) =
        runChanOps (applyChanOp ch op) rest := rfl
    obtain ⟨ihOwner, ihCount⟩ := ih (applyChanOp ch op)
    have hOwner : (runChanOps ch (op :: rest)).owner_id = ch.owner_id := by
      rw [hrun, ihOwner, applyChanOp_owner]
    refine ⟨hOwner, ?_⟩
    rw [hrun, ihCount, applyChanOp_owner]
    cases hAfter : afterLastReset rest with
    | some suffix =>
      have : afterLastReset (op :: rest) = some suffix := by
        unfold afterLastReset
        rw [hAfter]
      rw [this]
    | none =>
      cases op with
      | resetUnread =>
        have : afterLastReset (.resetUnread :: rest) = some rest := by
          unfold afterLastReset
          rw [hAfter]
          rfl
        rw [this]
        simp [applyChanOp, reset_unread_count]
      | insertMessage sender =>
        have : afterLastReset (ChanOp.insertMessage sender :: rest) =
            none := by
          unfold afterLastReset
          rw [hAfter]
          rfl
        rw [this]
        simp only [applyChanOp, increment_unread_count, countInbound,
          List.filter_cons, isInbound]
        by_cases hs : sender = ch.owner_id
        · simp [hs]
        · simp [hs]
          show ch.unread_count + 1 +
              (List.filter (isInbound ch.owner_id) rest).length =
              ch.unread_count +
                ((List.filter (isInbound ch.owner_id) rest).length + 1)
          omega

/-- Claim C2: after any interleaving of message inserts and resets,
unread_count equals the number of inbound inserts (sender distinct
from the channel owner) since the last reset (or since the start when
no reset occurred); an outbound insert changes nothing, and reset
zeroes the counter unconditionally and is idempotent. -/
theorem unread_count_tracks_inbound_inserts (ch : UnreadChannel)
    (ops : List ChanOp) :
    ((runChanOps ch ops).unread_count =
      (match afterLastReset ops with
       | some suffix => countInbound ch.owner_id suffix
       | none => ch.unread_count + countInbound ch.owner_id ops)) ∧
    applyChanOp ch (.insertMessage ch.owner_id) = ch ∧
    (applyChanOp ch .resetUnread).unread_count = 0 ∧
    applyChanOp (applyChanOp ch .resetUnread) .resetUnread =
      applyChanOp ch .resetUnread := by
  refine ⟨(runChanOps_spec ops ch).2, ?_, rfl, rfl⟩
  simp only [applyChanOp, increment_unread_count]
  rw [if_neg (by simp)]

/-- The typing upsert's per-row update never changes which key a row
belongs to: only expires_at is rewritten. -/
theorem matchesTypingKey_after_upsert (chId : ChannelId) (uid : UserId)
    (now : Time) (r : TypingRow) :
    matchesTypingKey chId uid
        (if matchesTypingKey chId uid r then
          { r with expires_at := now + 5000 }
         else r) =
      matchesTypingKey chId uid r := by
  by_cases h : matchesTypingKey chId uid r = true
  · rw [if_pos h]
    rfl
  · rw [if_neg h]

/-- Claim C6: signalling typing upserts the single (channel, user) row
with expires_at five seconds past the call time (every matching row
afterwards carries that deadline, a matching row exists, and exactly
one matching row remains when at most the upsert created it), and a
subscriber handling an INSERT or UPDATE event for a row at or past its
expires_at never reports active typing; a DELETE event never reports
active typing either. -/
theorem typing_signal_expiry (chId : ChannelId) (uid watcher : UserId)
    (now recvTime : Time) (rows : List TypingRow) (r0 : TypingRow) :
    (∀ r ∈ sendTypingIndicator chId uid now rows,
       matchesTypingKey chId uid r = true → r.expires_at = now + 5000) ∧
    (sendTypingIndicator chId uid now rows).any
        (matchesTypingKey chId uid) = true ∧
    (sendTypingIndicator chId uid now rows).countP
        (matchesTypingKey chId uid) =
      max 1 (rows.countP (matchesTypingKey chId uid)) ∧
    (r0.expires_at ≤ recvTime →
      reportsTyping (subscribeToTypingHandler watcher recvTime
          (.inserted r0)) = false ∧
      reportsTyping (subscribeToTypingHandler watcher recvTime
          (.updated r0)) = false) ∧
    reportsTyping (subscribeToTypingHandler watcher recvTime
        .deleted) = false := by
  refine ⟨?_, ?_, ?_, ?_, ?_⟩
  · intro r hr hkey
    unfold sendTypingIndicator at hr
    by_cases hany : rows.any (matchesTypingKey chId uid) = true
    · rw [if_pos hany] at hr
      obtain ⟨r0, hr0, rfl⟩ := List.mem_map.mp hr
      rw [matchesTypingKey_after_upsert] at hkey
      rw [if_pos hkey]
    · rw [if_neg hany] at hr
      rcases List.mem_append.mp hr with hmem | hmem
      · have hanyf : rows.any (matchesTypingKey chId uid) = false :=
          Bool.not_eq_true _ ▸ eq_false_of_ne_true hany
        exact absurd hkey (List.any_eq_false.mp hanyf r hmem)
      · rw [List.mem_singleton.mp hmem]
  · unfold sendTypingIndicator
    by_cases hany : rows.any (matchesTypingKey chId uid) = true
    · rw [if_pos hany]
      obtain ⟨r0, hr0, h0⟩ := List.any_eq_true.mp hany
      refine List.any_eq_true.mpr ⟨_, List.mem_map_of_mem _ hr0, ?_⟩
      rw [matchesTypingKey_after_upsert]
      exact h0
    · rw [if_neg hany]
      refine List.any_eq_true.mpr ⟨_, List.mem_append_right _
        (List.mem_singleton_self _), ?_⟩
      simp [matchesTypingKey]
  · unfold sendTypingIndicator
    by_cases hany : rows.any (matchesTypingKey chId uid) = true
    · rw [if_pos hany]
      rw [List.countP_map]
      have hfun : ((matchesTypingKey chId uid) ∘ fun r =>
          if matchesTypingKey chId uid r then
            { r with expires_at := now + 5000 }
          else r) = matchesTypingKey chId uid := by
        funext r
        exact matchesTypingKey_after_upsert chId uid now r
      rw [hfun]
      obtain ⟨r0, hr0, h0⟩ := List.any_eq_true.mp hany
      have hpos : 0 < rows.countP (matchesTypingKey chId uid) :=
        List.countP_pos_iff.mpr ⟨r0, hr0, h0⟩
      exact (Nat.max_eq_right hpos).symm
    · rw [if_neg hany]
      have hanyf : rows.any (matchesTypingKey chId uid) = false :=
        Bool.not_eq_true _ ▸ eq_false_of_ne_true hany
      have hzero : rows.countP (matchesTypingKey chId uid) = 0 := by
        rw [List.countP_eq_zero]
        exact List.any_eq_false.mp hanyf
      rw [List.countP_append, hzero]
      simp [matchesTypingKey]
  · intro h
    have hvalid : decide (recvTime < r0.expires_at) = false :=
      decide_eq_false (Nat.not_lt.mpr h)
    constructor
    · simp only [subscribeToTypingHandler, payloadNewUserId]
      by_cases hself : r0.user_id = watcher
      · rw [if_pos (by rw [hself])]
        rfl
      · rw [if_neg (by simpa using hself)]
        simp [reportsTyping, hvalid]
    · simp only [subscribeToTypingHandler, payloadNewUserId]
      by_cases hself : r0.user_id = watcher
      · rw [if_pos (by rw [hself])]
        rfl
      · rw [if_neg (by simpa using hself)]
        simp [reportsTyping, hvalid]
  · rfl

/-- Claim C6 witness: an insert event whose deadline (5000) has passed
by receipt time 6000 is reported as not typing, and a signal on the
empty table leaves exactly one row for the key. -/
theorem typing_signal_expiry_witness :
    reportsTyping (subscribeToTypingHandler 1 6000
        (.inserted { channel_id := 0, user_id := 2, created_at := 0,
                     expires_at := 5000 })) = false ∧
    (sendTypingIndicator 0 2 1000 []).countP (matchesTypingKey 0 2) =
      max 1 (([] : List TypingRow).countP (matchesTypingKey 0 2)) := by
  constructor
  · exact ((typing_signal_expiry 0 2 1 1000 6000 []
      { channel_id := 0, user_id := 2, created_at := 0,
        expires_at := 5000 }).2.2.2.1 (by decide)).1
  · exact (typing_signal_expiry 0 2 1 1000 6000 []
      { channel_id := 0, user_id := 2, created_at := 0,
        expires_at := 5000 }).2.2.1

/-- Claim C7 failing input: the subscribeToTyping handler reads the
payload's new field for every event type, but a DELETE event carries
no new row, so the self-filter compares an undefined user id with the
subscriber's id and never fires, and the callback receives an
undefined user id.  Concretely for subscriber 2: their own UPDATE
event is correctly dropped, but a DELETE event — including the
deletion of subscriber 2's own typing row, which the handler cannot
even distinguish — still invokes the callback, with not-typing and no
user id (none) rather than the affected user's id. -/
theorem typing_delete_event_not_self_filtered :
    subscribeToTypingHandler 2 100
        (.updated { channel_id := 0, user_id := 2, created_at := 0,
                    expires_at := 5000 }) = none ∧
    subscribeToTypingHandler 2 100 .deleted = some (false, none) := by
  decide

/-- The presence upsert keeps every existing row present with the same
user id, and never lowers its last_seen when the call time is at or
above it. -/
theorem updatePresence_exists_monotone (uid : UserId)
    (st : PresenceStatus) (t : Time) (rows : List PresenceRow)
    (r : PresenceRow) (hr : r ∈ rows) (hle : r.last_seen ≤ t) :
    ∃ r1 ∈ updatePresence uid st t rows,
      r1.user_id = r.user_id ∧ r.last_seen ≤ r1.last_seen := by
  unfold updatePresence
  by_cases hany : rows.any (fun r => r.user_id = uid) = true
  · rw [if_pos hany]
    refine ⟨_, List.mem_map_of_mem _ hr, ?_⟩
    by_cases h : r.user_id = uid
    · simp [h, hle]
    · simp [h]
  · rw [if_neg hany]
    exact ⟨r, List.mem_append_left _ hr, rfl, le_refl _⟩

/-- After a presence upsert at a time below some later bound that also
bounded every previous row, every row is still below the bound. -/
theorem updatePresence_last_seen_bound (uid : UserId)
    (st : PresenceStatus) (t : Time) (rows : List PresenceRow)
    (bound : Time) (hrows : ∀ r ∈ rows, r.last_seen ≤ bound)
    (ht : t ≤ bound) :
    ∀ r1 ∈ updatePresence uid st t rows, r1.last_seen ≤ bound := by
  intro r1 hr1
  unfold updatePresence at hr1
  by_cases hany : rows.any (fun r => r.user_id = uid) = true
  · rw [if_pos hany] at hr1
    obtain ⟨r0, hr0, rfl⟩ := List.mem_map.mp hr1
    by_cases h : r0.user_id = uid
    · simpa [h] using ht
    · simpa [h] using hrows r0 hr0
  · rw [if_neg hany] at hr1
    rcases List.mem_append.mp hr1 with hmem | hmem
    · exact hrows r1 hmem
    · rw [List.mem_singleton.mp hmem]
      exact ht

/-- The presence upsert preserves the one-row-per-user invariant: an
existing row is updated in place, a missing user gets a single fresh
row whose user id clashes with no existing row. -/
theorem updatePresence_distinct (uid : UserId) (st : PresenceStatus)
    (t : Time) (rows : List PresenceRow) (h : distinctUsers rows) :
    distinctUsers (updatePresence uid st t rows) := by
  unfold updatePresence distinctUsers
  by_cases hany : rows.any (fun r => r.user_id = uid) = true
  · rw [if_pos hany]
    rw [List.pairwise_map]
    refine h.imp ?_
    intro a b hab
    have hua : ∀ r : PresenceRow,
        (if r.user_id = uid then
          { r with status := st, last_seen := t, updated_at := t }
         else r).user_id = r.user_id := by
      intro r
      split <;> rfl
    rw [hua, hua]
    exact hab
  · rw [if_neg hany]
    rw [List.pairwise_append]
    refine ⟨h, List.pairwise_singleton _ _, ?_⟩
    intro a ha b hb
    rw [List.mem_singleton.mp hb]
    have hanyf : rows.any (fun r => r.user_id = uid) = false :=
      Bool.not_eq_true _ ▸ eq_false_of_ne_true hany
    simpa using List.any_eq_false.mp hanyf a ha

/-- Any sequence of presence calls preserves the one-row-per-user
invariant. -/
theorem runPresenceCalls_distinct (calls : List PresenceCall)
    (rows : List PresenceRow) (h : distinctUsers rows) :
    distinctUsers (runPresenceCalls rows calls) := by
  induction calls generalizing rows with
  | nil => exact h
  | cons c rest ih => exact ih _ (updatePresence_distinct _ _ _ _ h)

/-- Under time-ordered calls bounding every starting row, the run of
presence calls never lowers any user's last_seen. -/
theorem runPresenceCalls_monotone (calls : List PresenceCall)
    (rows : List PresenceRow)
    (hbound : ∀ r ∈ rows, ∀ c ∈ calls, r.last_seen ≤ c.time)
    (hsorted : calls.Pairwise (fun a b => a.time ≤ b.time))
    (huniq : distinctUsers rows) :
    lastSeenMonotoneFrom rows (runPresenceCalls rows calls) := by
  induction calls generalizing rows with
  | nil =>
    intro r0 h0 rF hF hEq
    by_cases hne : r0 = rF
    · rw [hne]
    · have hner : r0.user_id ≠ rF.user_id :=
        List.Pairwise.forall (fun _ _ hab => Ne.symm hab) huniq h0 hF hne
      exact absurd hEq.symm hner
  | cons c rest ih =>
    obtain ⟨hhead, htail⟩ := List.pairwise_cons.mp hsorted
    intro r0 h0 rF hF hEq
    obtain ⟨r1, hr1, huid1, hle1⟩ :=
      updatePresence_exists_monotone c.user c.status c.time rows r0 h0
        (hbound r0 h0 c (List.mem_cons_self c rest))
    have hbound1 : ∀ r1 ∈ updatePresence c.user c.status c.time rows,
        ∀ c' ∈ rest, r1.last_seen ≤ c'.time := by
      intro r1 hr1 c' hc'
      exact updatePresence_last_seen_bound c.user c.status c.time rows
        c'.time (fun r hrr => hbound r hrr c' (List.mem_cons_of_mem _ hc'))
        (hhead c' hc') r1 hr1
    have ihm := ih (updatePresence c.user c.status c.time rows)
      (fun r hrr c' hc' => hbound1 r hrr c' hc') htail
      (updatePresence_distinct c.user c.status c.time rows huniq)
    have hF' : rF ∈ runPresenceCalls
        (updatePresence c.user c.status c.time rows) rest := hF
    exact le_trans hle1 (ihm r1 hr1 rF hF' (hEq.trans huid1.symm))

/-- Claim C8: across any time-ordered sequence of heartbeat,
visibility and teardown presence calls, each user's last_seen is
non-decreasing, and at most one presence row exists per user: the
one-row-per-user invariant is preserved by every upsert. -/
theorem presence_monotone_and_unique (rows : List PresenceRow)
    (calls : List PresenceCall)
    (hbound : ∀ r ∈ rows, ∀ c ∈ calls, r.last_seen ≤ c.time)
    (hsorted : calls.Pairwise (fun a b => a.time ≤ b.time))
    (huniq : distinctUsers rows) :
    lastSeenMonotoneFrom rows (runPresenceCalls rows calls) ∧
    distinctUsers (runPresenceCalls rows calls) :=
  ⟨runPresenceCalls_monotone calls rows hbound hsorted huniq,
   runPresenceCalls_distinct calls rows huniq⟩

/-- Claim C8 witness: a concrete user with an existing row at time 0
going through a heartbeat, a visibility loss and a teardown at times
3, 5 and 7. -/
theorem presence_monotone_and_unique_witness :
    lastSeenMonotoneFrom
        [{ user_id := 1, status := .online, last_seen := 0,
           updated_at := 0 }]
        (runPresenceCalls
          [{ user_id := 1, status := .online, last_seen := 0,
             updated_at := 0 }]
          [{ user := 1, status := .online, time := 3 },
           { user := 1, status := .away, time := 5 },
           { user := 1, status := .offline, time := 7 }]) ∧
    distinctUsers
        (runPresenceCalls
          [{ user_id := 1, status := .online, last_seen := 0,
             updated_at := 0 }]
          [{ user := 1, status := .online, time := 3 },
           { user := 1, status := .away, time := 5 },
           { user := 1, status := .offline, time := 7 }]) :=
  presence_monotone_and_unique
    [{ user_id := 1, status := .online, last_seen := 0, updated_at := 0 }]
    [{ user := 1, status := .online, time := 3 },
     { user := 1, status := .away, time := 5 },
     { user := 1, status := .offline, time := 7 }]
    (by decide) (by decide) (by decide)
